import Mathlib

/-
Verification development for the Telegram bot in src/bot/bot.py
(feskolech/steamwebauthenticator).

The embedding models the parsed-JSON values the bot manipulates, the
relevant fragment of Python runtime behaviour (truthiness, str/repr,
dict access, exceptions), the backend-client normalisation performed by
call_backend, and each aiogram message handler as a pure function from
the inbound message and a backend environment to the ordered list of
backend calls it makes and the ordered list of chat replies it sends.

The backend environment is a function from call index to a transport
event: either an HTTP response (status plus the outcome of JSON-parsing
its body) or a transport failure.  JSON parsing itself is not modelled;
a response carries either the parsed value or the parser diagnostic
text, mirroring json.JSONDecodeError raised by response.json.
-/

/-- Parsed JSON value as produced by the Python json parser.  Numbers are
modelled as integers (no claim involves non-integer numbers); objects are
the post-parse dict: an association list with unique keys in insertion
order. -/
inductive Json where
  | null
  | bool (b : Bool)
  | num (n : Int)
  | str (s : String)
  | arr (xs : List Json)
  | obj (kvs : List (String × Json))

/-- First binding for a key in a dict, as Python dict lookup. -/
def lookupField (kvs : List (String × Json)) (k : String) : Option Json :=
  match kvs with
  | [] => none
  | (k2, v) :: rest => if k2 = k then some v else lookupField rest k

/-- Single-quote character, used by the Python repr of strings. -/
def sqChar : Char := Char.ofNat 39

/-- Double-quote character. -/
def dqChar : Char := '"'

/-- Escaping of one character inside a Python string repr quoted with q.
Covers the backslash, the quote character and the common control
characters; other characters are kept as written. -/
def pyEscapeChar (q c : Char) : List Char :=
  if c = '\\' then ['\\', '\\']
  else if c = q then ['\\', q]
  else if c = '\n' then ['\\', 'n']
  else if c = '\r' then ['\\', 'r']
  else if c = '\t' then ['\\', 't']
  else [c]

/-- Escape every character of a list. -/
def escList (q : Char) : List Char → List Char
  | [] => []
  | c :: cs => pyEscapeChar q c ++ escList q cs

/-- Python repr of a string: single-quoted, switching to double quotes
when the string contains a single quote but no double quote. -/
def pyReprStr (s : String) : String :=
  let q := if s.data.contains sqChar && !(s.data.contains dqChar) then dqChar else sqChar
  ⟨q :: escList q s.data ++ [q]⟩

/-- Comma-space join, as the Python repr of containers. -/
def commaJoin (parts : List String) : String :=
  String.intercalate ", " parts

mutual

/-- Python repr of a parsed JSON value. -/
def pyRepr : Json → String
  | .null => "None"
  | .bool b => if b then "True" else "False"
  | .num n => toString n
  | .str s => pyReprStr s
  | .arr xs => "[" ++ commaJoin (pyReprList xs) ++ "]"
  | .obj kvs => "\x7b" ++ commaJoin (pyReprKVs kvs) ++ "\x7d"

/-- Reprs of the elements of a list. -/
def pyReprList : List Json → List String
  | [] => []
  | x :: xs => pyRepr x :: pyReprList xs

/-- Reprs of the key-value pairs of a dict. -/
def pyReprKVs : List (String × Json) → List String
  | [] => []
  | (k, v) :: rest => (pyReprStr k ++ ": " ++ pyRepr v) :: pyReprKVs rest

end

/-- Python str of a parsed JSON value: the string itself for strings,
repr otherwise.  This is also the text interpolated by f-strings. -/
def pyStr (v : Json) : String :=
  match v with
  | .str s => s
  | v => pyRepr v

/-- Python truthiness of a parsed JSON value. -/
def pyTruthy : Json → Bool
  | .null => false
  | .bool b => b
  | .num n => n != 0
  | .str s => !s.data.isEmpty
  | .arr xs => !xs.isEmpty
  | .obj kvs => !kvs.isEmpty

/-- Python type name of a parsed JSON value. -/
def pyTypeName : Json → String
  | .null => "NoneType"
  | .bool _ => "bool"
  | .num _ => "int"
  | .str _ => "str"
  | .arr _ => "list"
  | .obj _ => "dict"

/-- The Python exceptions that can arise in the modelled fragment.
jsonDecodeError carries the diagnostic text of the json parser, which is
part of the environment (the parser itself is not modelled). -/
inductive PyExc where
  | runtimeError (arg : Json)
  | jsonDecodeError (diag : String)
  | attributeError (typeName : String) (attr : String)
  | keyError (key : String)
  | typeError (msg : String)
  | valueError (msg : String)
  | netFail (msg : String)

/-- Wrap a string in single quotes. -/
def sqQuote (s : String) : String :=
  ⟨sqChar :: s.data ++ [sqChar]⟩

/-- Text produced when a handler interpolates a caught exception into an
f-string: str of the exception.  For RuntimeError raised with a single
argument this is str of the argument; for KeyError it is the repr of the
missing key. -/
def PyExc.str : PyExc → String
  | .runtimeError a => pyStr a
  | .jsonDecodeError d => d
  | .attributeError t a => sqQuote t ++ " object has no attribute " ++ sqQuote a
  | .keyError k => pyReprStr k
  | .typeError m => m
  | .valueError m => m
  | .netFail m => m

/-- Python v.get(k, dflt): dict lookup with default, AttributeError on a
non-dict receiver. -/
def pyGet (v : Json) (k : String) (dflt : Json) : Except PyExc Json :=
  match v with
  | .obj kvs => .ok ((lookupField kvs k).getD dflt)
  | v => .error (.attributeError (pyTypeName v) "get")

/-- Python v[k] with a string key: dict lookup raising KeyError when the
key is absent, TypeError on non-dict receivers. -/
def pySubscript (v : Json) (k : String) : Except PyExc Json :=
  match v with
  | .obj kvs =>
    match lookupField kvs k with
    | some x => .ok x
    | none => .error (.keyError k)
  | .arr _ => .error (.typeError "list indices must be integers or slices, not str")
  | .str _ => .error (.typeError "string indices must be integers")
  | v => .error (.typeError (sqQuote (pyTypeName v) ++ " object is not subscriptable"))

/-- Python iteration over a parsed JSON value: lists yield elements,
strings yield one-character strings, dicts yield their keys, the rest
raise TypeError. -/
def pyIterList (v : Json) : Except PyExc (List Json) :=
  match v with
  | .arr xs => .ok xs
  | .str s => .ok (s.data.map fun c => .str ⟨[c]⟩)
  | .obj kvs => .ok (kvs.map fun kv => .str kv.1)
  | v => .error (.typeError (sqQuote (pyTypeName v) ++ " object is not iterable"))

/-- Drop the leading whitespace run of a character list. -/
def dropWs : List Char → List Char
  | [] => []
  | c :: cs => if c.isWhitespace then dropWs cs else c :: cs

/-- Drop the trailing whitespace run of a character list. -/
def dropWsEnd : List Char → List Char
  | [] => []
  | c :: cs =>
    match dropWsEnd cs with
    | [] => if c.isWhitespace then [] else [c]
    | r => c :: r

/-- Characters of a string with leading and trailing whitespace removed. -/
def pyStripData (l : List Char) : List Char :=
  dropWsEnd (dropWs l)

/-- Python str.strip with no argument. -/
def pyStrip (s : String) : String :=
  ⟨pyStripData s.data⟩

/-- Longest whitespace-free front segment of a character list, with the
remainder. -/
def spanTok : List Char → List Char × List Char
  | [] => ([], [])
  | c :: cs =>
    if c.isWhitespace then ([], c :: cs)
    else
      let p := spanTok cs
      (c :: p.1, p.2)

/-- Python text.split(maxsplit=1) with no separator argument: leading
whitespace is skipped, the first whitespace-free run is the first part,
and the remainder after the following whitespace run is the second part
when it is nonempty. -/
def pySplitMax1 (s : String) : List String :=
  match dropWs s.data with
  | [] => []
  | l =>
    let p := spanTok l
    match dropWs p.2 with
    | [] => [⟨p.1⟩]
    | r => [⟨p.1⟩, ⟨r⟩]

/-- Boolean front-segment test on character lists. -/
def listIsPref : List Char → List Char → Bool
  | [], _ => true
  | _ :: _, [] => false
  | p :: ps, c :: cs => p = c && listIsPref ps cs

/-- Python s.startswith(pre). -/
def pyStartsWith (s pre : String) : Bool :=
  listIsPref pre.data s.data

/-- Split a character list at the first occurrence of sep; none when sep
does not occur. -/
def splitFirstAt (sep : Char) : List Char → Option (List Char × List Char)
  | [] => none
  | c :: cs =>
    if c = sep then some ([], cs)
    else
      match splitFirstAt sep cs with
      | some p => some (c :: p.1, p.2)
      | none => none

/-- Python identifier.split(const-colon, 1) when a colon is present:
the parts before and after the first colon. -/
def pyColonSplit (s : String) : Option (String × String) :=
  match splitFirstAt ':' s.data with
  | some p => some (⟨p.1⟩, ⟨p.2⟩)
  | none => none

/-- Python text.split(const-equals, 1)[1]: the part after the first
equals sign, none when absent (where Python would raise IndexError). -/
def pyEqSplitAfter (s : String) : Option String :=
  match splitFirstAt '=' s.data with
  | some p => some ⟨p.2⟩
  | none => none

/-- Replace the first occurrence of pat by repl, as Python
s.replace(pat, repl, 1) on character lists. -/
def replaceFirstList (pat repl : List Char) (l : List Char) : List Char :=
  if listIsPref pat l then repl ++ l.drop pat.length
  else
    match l with
    | [] => []
    | c :: cs => c :: replaceFirstList pat repl cs
termination_by l.length

/-- Python s.replace(pat, repl, 1). -/
def pyReplaceFirst (s pat repl : String) : String :=
  ⟨replaceFirstList pat.data repl.data s.data⟩

/-- Decimal value of a digit run, none on a non-digit or an empty run. -/
def digitsValAux : Nat → List Char → Option Nat
  | acc, [] => some acc
  | acc, c :: cs =>
    if c.isDigit then digitsValAux (acc * 10 + (c.toNat - 48)) cs else none

/-- Decimal value of a nonempty digit run. -/
def digitsVal (l : List Char) : Option Nat :=
  match l with
  | [] => none
  | l => digitsValAux 0 l

/-- Python int(s) on a string: optional sign and a digit run, with
surrounding whitespace ignored. -/
def pyIntOfStr (s : String) : Option Int :=
  match (pyStrip s).data with
  | '-' :: ds => (digitsVal ds).map fun n => -(n : Int)
  | '+' :: ds => (digitsVal ds).map fun n => (n : Int)
  | ds => (digitsVal ds).map fun n => (n : Int)

/-- Python int(v) on a parsed JSON value. -/
def pyInt (v : Json) : Except PyExc Int :=
  match v with
  | .num n => .ok n
  | .bool b => .ok (if b then 1 else 0)
  | .str s =>
    match pyIntOfStr s with
    | some n => .ok n
    | none => .error (.valueError ("invalid literal for int() with base 10: " ++ pyReprStr s))
  | v => .error (.typeError ("int() argument must be a string, a bytes-like object or a real number, not " ++ sqQuote (pyTypeName v)))

/-- Inbound chat message as seen by a handler: its text and the
from_user fields the handlers read.  Telegram user ids are numeric. -/
structure Msg where
  text : String
  userId : Int
  username : Option String

/-- Outcome of JSON-parsing a response body: the parsed value, or the
diagnostic text of the json.JSONDecodeError raised by response.json. -/
inductive BodyParse where
  | parsed (v : Json)
  | invalid (diag : String)

/-- HTTP response from the backend, reduced to the fields call_backend
inspects. -/
structure HttpResponse where
  status : Nat
  body : BodyParse

/-- What the transport yields for one backend request: a response, or a
timeout/connection failure raised by aiohttp. -/
inductive TransportEvent where
  | response (r : HttpResponse)
  | netFail (msg : String)

/-- Result of one call_backend invocation as observed by a handler:
the returned value, or the exception that escaped the call. -/
inductive CallOutcome where
  | ok (v : Json)
  | exn (e : PyExc)

/-- One backend request issued by a handler. -/
structure BackendCall where
  method : String
  path : String
  payload : Option Json

/-- Backend environment: the transport event answering the i-th backend
request a handler makes while processing one message. -/
abbrev BackendEnv := Nat → TransportEvent

/-- Observable behaviour of a handler on one message: the backend calls
it makes, in order, and the chat replies it sends, in order. -/
abbrev HandlerOut := List BackendCall × List String

/-- Embedding of call_backend (src/bot/bot.py lines 21-31) applied to a
received response: the body is JSON-parsed before the status check, so
an unparseable body raises json.JSONDecodeError even for error statuses;
on status at least 400 a RuntimeError is raised whose argument is the
message field of a dict body (None when absent) or str of a non-dict
body; otherwise the parsed body is returned. -/
def call_backend (resp : HttpResponse) : CallOutcome :=
  match resp.body with
  | .invalid diag => .exn (.jsonDecodeError diag)
  | .parsed data =>
    if 400 ≤ resp.status then
      match data with
      | .obj kvs => .exn (.runtimeError ((lookupField kvs "message").getD .null))
      | d => .exn (.runtimeError (.str (pyStr d)))
    else .ok data

/-- Outcome of the i-th backend call under environment env: a transport
failure surfaces as the aiohttp exception, a response goes through
call_backend. -/
def callAt (env : BackendEnv) (i : Nat) : CallOutcome :=
  match env i with
  | .netFail msg => .exn (.netFail msg)
  | .response r => call_backend r

/-- JSON payload value for the username field: the Telegram username or
None. -/
def jsonOfUsername : Option String → Json
  | some u => .str u
  | none => .null

/-- Static reply of the deep-link start handler when the argument does
not begin with login_ (src/bot/bot.py lines 57-65). -/
def startReadyText : String :=
  "SteamGuard Bot ready.\nCommands:\n/add=<code> - link Telegram to web account\n/accounts - list Steam accounts\n/codes - get auth codes\n/confirm <trade_id> - confirm pending trade\n/status - bot/backend status"

/-- Static greeting of the bare start handler (src/bot/bot.py lines
68-72). -/
def startPlainText : String :=
  "SteamGuard Bot is active. Use /accounts, /codes or /add=<code> from web settings."

/-- Usage reply of the confirm handler (src/bot/bot.py line 125). -/
def confirmUsage : String :=
  "Usage: /confirm <trade_id> OR /confirm <account_id>:<trade_id>"

/-- Reply sent by the confirm handler when an exception is caught. -/
def confirmFailText (e : PyExc) : String :=
  "Confirm failed: " ++ e.str

/-- The oauth call issued by the deep-link start handler. -/
def oauthCall (m : Msg) (code : String) : BackendCall :=
  ⟨"POST", "/api/telegram/bot/oauth",
    some (.obj [("code", .str code),
                ("telegramUserId", .str (toString m.userId)),
                ("username", jsonOfUsername m.username)])⟩

/-- Embedding of the deep-link start handler start_with_param
(src/bot/bot.py lines 34-65). -/
def start_with_param (m : Msg) (env : BackendEnv) : HandlerOut :=
  let parts := pySplitMax1 m.text
  let arg := if 1 < parts.length then parts.getD 1 "" else ""
  if pyStartsWith arg "login_" then
    let code := pyReplaceFirst arg "login_" ""
    match callAt env 0 with
    | .ok _ => ([oauthCall m code],
        ["Login approved. Return to SteamGuard Web and wait for auto-login."])
    | .exn e => ([oauthCall m code], ["Login failed: " ++ e.str])
  else
    ([], [startReadyText])

/-- Embedding of the bare start handler start_plain (src/bot/bot.py
lines 68-72). -/
def start_plain (_m : Msg) (_env : BackendEnv) : HandlerOut :=
  ([], [startPlainText])

/-- The accounts lookup call, shared by the status and accounts
handlers. -/
def accountsGetCall (m : Msg) : BackendCall :=
  ⟨"GET", "/api/telegram/bot/accounts/" ++ toString m.userId, none⟩

/-- Embedding of the status handler (src/bot/bot.py lines 75-81). -/
def status (m : Msg) (env : BackendEnv) : HandlerOut :=
  match callAt env 0 with
  | .ok _ => ([accountsGetCall m], ["Backend connection: OK"])
  | .exn e => ([accountsGetCall m], ["Backend connection error: " ++ e.str])

/-- Rendering of one account line (src/bot/bot.py line 95), with the
f-string expressions evaluated in textual order. -/
def renderAccountLine (item : Json) : Except PyExc String :=
  match pySubscript item "id" with
  | .error e => .error e
  | .ok idv =>
    match pySubscript item "alias" with
    | .error e => .error e
    | .ok al =>
      match pyGet item "steamid" .null with
      | .error e => .error e
      | .ok sid =>
        .ok ("- [" ++ pyStr idv ++ "] " ++ pyStr al ++ " ("
          ++ (if pyTruthy sid then pyStr sid else "no steamid") ++ ")")

/-- Rendering of one code line (src/bot/bot.py line 113). -/
def renderCodeLine (item : Json) : Except PyExc String :=
  match pySubscript item "alias" with
  | .error e => .error e
  | .ok al =>
    match pySubscript item "code" with
    | .error e => .error e
    | .ok cd => .ok ("- " ++ pyStr al ++ ": `" ++ pyStr cd ++ "`")

/-- Render each item, stopping at the first exception, as a Python for
loop that appends lines. -/
def renderLines (f : Json → Except PyExc String) : List Json → Except PyExc (List String)
  | [] => .ok []
  | x :: xs =>
    match f x with
    | .error e => .error e
    | .ok l =>
      match renderLines f xs with
      | .error e => .error e
      | .ok ls => .ok (l :: ls)

/-- Embedding of the accounts handler (src/bot/bot.py lines 84-99). -/
def accounts (m : Msg) (env : BackendEnv) : HandlerOut :=
  let call := accountsGetCall m
  match callAt env 0 with
  | .exn e => ([call], ["Failed to fetch accounts: " ++ e.str])
  | .ok data =>
    match pyGet data "items" (.arr []) with
    | .error e => ([call], ["Failed to fetch accounts: " ++ e.str])
    | .ok items =>
      if !pyTruthy items then ([call], ["No Steam accounts linked."])
      else
        match pyIterList items with
        | .error e => ([call], ["Failed to fetch accounts: " ++ e.str])
        | .ok xs =>
          match renderLines renderAccountLine xs with
          | .error e => ([call], ["Failed to fetch accounts: " ++ e.str])
          | .ok lines =>
            ([call], [String.intercalate "\n" ("Your Steam accounts:" :: lines)])

/-- The codes lookup call. -/
def codesGetCall (m : Msg) : BackendCall :=
  ⟨"GET", "/api/telegram/bot/codes/" ++ toString m.userId, none⟩

/-- Embedding of the codes handler (src/bot/bot.py lines 102-117). -/
def codes (m : Msg) (env : BackendEnv) : HandlerOut :=
  let call := codesGetCall m
  match callAt env 0 with
  | .exn e => ([call], ["Failed to fetch codes: " ++ e.str])
  | .ok data =>
    match pyGet data "items" (.arr []) with
    | .error e => ([call], ["Failed to fetch codes: " ++ e.str])
    | .ok items =>
      if !pyTruthy items then ([call], ["No linked accounts or codes unavailable."])
      else
        match pyIterList items with
        | .error e => ([call], ["Failed to fetch codes: " ++ e.str])
        | .ok xs =>
          match renderLines renderCodeLine xs with
          | .error e => ([call], ["Failed to fetch codes: " ++ e.str])
          | .ok lines =>
            ([call], [String.intercalate "\n" ("Current Steam codes:" :: lines)])

/-- The pending-confirmations lookup call. -/
def confirmsGetCall (m : Msg) : BackendCall :=
  ⟨"GET", "/api/telegram/bot/confirms/" ++ toString m.userId, none⟩

/-- Scan for the first pending item whose account_id and confirmation_id
string forms equal the two identifier parts (src/bot/bot.py lines
140-144); the conjunction short-circuits as the Python and. -/
def scanColon (items : List Json) (l r : String) : Except PyExc (Option Json) :=
  match items with
  | [] => .ok none
  | item :: rest =>
    match pySubscript item "account_id" with
    | .error e => .error e
    | .ok a =>
      if pyStr a = l then
        match pySubscript item "confirmation_id" with
        | .error e => .error e
        | .ok c => if pyStr c = r then .ok (some item) else scanColon rest l r
      else scanColon rest l r

/-- Scan for the first pending item whose confirmation_id string form
equals the bare identifier (src/bot/bot.py lines 146-149). -/
def scanBare (items : List Json) (idf : String) : Except PyExc (Option Json) :=
  match items with
  | [] => .ok none
  | item :: rest =>
    match pySubscript item "confirmation_id" with
    | .error e => .error e
    | .ok c => if pyStr c = idf then .ok (some item) else scanBare rest idf

/-- Selection of the chosen pending item from the identifier
(src/bot/bot.py lines 137-149): the colon form when the identifier
contains a colon, the bare form otherwise. -/
def resolveIdentifier (items : List Json) (identifier : String) : Except PyExc (Option Json) :=
  match pyColonSplit identifier with
  | some p => scanColon items p.1 p.2
  | none => scanBare items identifier

/-- The confirm POST payload (src/bot/bot.py lines 158-163), with the
dict-literal expressions evaluated in textual order. -/
def buildConfirmPayload (userId : Int) (chosen : Json) : Except PyExc Json :=
  match pySubscript chosen "account_id" with
  | .error e => .error e
  | .ok aRaw =>
    match pyInt aRaw with
    | .error e => .error e
    | .ok aid =>
      match pySubscript chosen "confirmation_id" with
      | .error e => .error e
      | .ok cRaw =>
        match pyGet chosen "nonce" .null with
        | .error e => .error e
        | .ok nonce =>
          .ok (.obj [("telegramUserId", .str (toString userId)),
                     ("accountId", .num aid),
                     ("confirmationId", .str (pyStr cRaw)),
                     ("nonce", nonce)])

/-- Embedding of the confirm handler (src/bot/bot.py lines 120-168). -/
def confirm (m : Msg) (env : BackendEnv) : HandlerOut :=
  let parts := pySplitMax1 m.text
  if parts.length < 2 then ([], [confirmUsage])
  else
    let identifier := pyStrip (parts.getD 1 "")
    let getCall := confirmsGetCall m
    match callAt env 0 with
    | .exn e => ([getCall], [confirmFailText e])
    | .ok pending =>
      match pyGet pending "items" (.arr []) with
      | .error e => ([getCall], [confirmFailText e])
      | .ok items =>
        if !pyTruthy items then ([getCall], ["No pending confirmations."])
        else
          match pyIterList items with
          | .error e => ([getCall], [confirmFailText e])
          | .ok xs =>
            match resolveIdentifier xs identifier with
            | .error e => ([getCall], [confirmFailText e])
            | .ok chosen =>
              match chosen with
              | none => ([getCall], ["Trade confirmation id not found in pending queue."])
              | some c =>
                if !pyTruthy c then
                  ([getCall], ["Trade confirmation id not found in pending queue."])
                else
                  match buildConfirmPayload m.userId c with
                  | .error e => ([getCall], [confirmFailText e])
                  | .ok payload =>
                    let postCall : BackendCall := ⟨"POST", "/api/telegram/bot/confirm", some payload⟩
                    match callAt env 1 with
                    | .exn e => ([getCall, postCall], [confirmFailText e])
                    | .ok _ => ([getCall, postCall], ["Trade confirmation sent to Steam successfully."])

/-- The link POST call issued by both /add branches of the fallback
handler. -/
def linkCall (m : Msg) (code : String) : BackendCall :=
  ⟨"POST", "/api/telegram/bot/link",
    some (.obj [("code", .str code),
                ("telegramUserId", .str (toString m.userId)),
                ("username", jsonOfUsername m.username)])⟩

/-- The link flow duplicated verbatim in the two /add branches of the
fallback handler (src/bot/bot.py lines 177-189 and 194-206). -/
def linkFlow (m : Msg) (env : BackendEnv) (code : String) : HandlerOut :=
  match callAt env 0 with
  | .ok _ => ([linkCall m code], ["Telegram account linked successfully."])
  | .exn e => ([linkCall m code], ["Link failed: " ++ e.str])

/-- Embedding of the fallback handler (src/bot/bot.py lines 171-209).
In the second branch Python indexes text.split(maxsplit=1)[1]; the none
arm is the IndexError that would then escape the handler unreplied — it
is proved unreachable below, because the stripped text starts with the
five characters of the /add prefix followed by a space and ends in a
non-whitespace character. -/
def fallback (m : Msg) (env : BackendEnv) : HandlerOut :=
  let text := pyStrip m.text
  if pyStartsWith text "/add=" then
    match pyEqSplitAfter text with
    | some code => linkFlow m env code
    | none => ([], [])
  else if pyStartsWith text "/add " then
    match pySplitMax1 text with
    | _ :: rest :: _ => linkFlow m env (pyStrip rest)
    | _ => ([], [])
  else
    ([], ["Unknown command. Use /accounts, /codes, /confirm or /add=<code>."])

/-- Command intent, one per registered handler. -/
inductive Intent where
  | startDeepLink
  | startPlain
  | statusCmd
  | accountsCmd
  | codesCmd
  | confirmCmd
  | other

/-- Modelled from the spec: the aiogram routing of an inbound text to
the first matching registered handler (the aiogram library is the
external chat transport; spec sections 4.2 and 4.4).  CommandStart with
deep_link=True matches a /start command with a non-empty argument,
CommandStart matches any /start command, Command matches on the first
whitespace-separated token, and the filterless fallback matches
everything else.  Bot-mention suffixes on command tokens are not
modelled. -/
def classify (text : String) : Intent :=
  match pySplitMax1 text with
  | [] => .other
  | cmd :: rest =>
    if cmd = "/start" then
      if rest.isEmpty then .startPlain else .startDeepLink
    else if cmd = "/status" then .statusCmd
    else if cmd = "/accounts" then .accountsCmd
    else if cmd = "/codes" then .codesCmd
    else if cmd = "/confirm" then .confirmCmd
    else .other

/-- Per-message dispatch: classify, then run the matching handler. -/
def dispatch (m : Msg) (env : BackendEnv) : HandlerOut :=
  match classify m.text with
  | .startDeepLink => start_with_param m env
  | .startPlain => start_plain m env
  | .statusCmd => status m env
  | .accountsCmd => accounts m env
  | .codesCmd => codes m env
  | .confirmCmd => confirm m env
  | .other => fallback m env

/-- A pending confirmation as delivered by the backend: an integer
account id and a string confirmation id. -/
def mkPending (aid : Int) (cid : String) : Json :=
  .obj [("account_id", .num aid), ("confirmation_id", .str cid)]

/-- Fixture sender used by concrete witnesses. -/
def msgWith (text : String) : Msg :=
  ⟨text, 7, some "alice"⟩

/-- Fixture environment whose every response is an empty 200 object. -/
def envBase : BackendEnv :=
  fun _ => .response ⟨200, .parsed (.obj [])⟩

/-- Fixture environment: every response is a 404 with a message field. -/
def env404 : BackendEnv :=
  fun _ => .response ⟨404, .parsed (.obj [("message", .str "no such code")])⟩

/-- Fixture environment: every response is a 500 with an empty object
body, so the message field is absent. -/
def env500 : BackendEnv :=
  fun _ => .response ⟨500, .parsed (.obj [])⟩

/-- Fixture environment: every response is a 200 whose body fails to
parse with the given diagnostic. -/
def envInvalid (diag : String) : BackendEnv :=
  fun _ => .response ⟨200, .invalid diag⟩

/-- Fixture environment: the pending-confirmations response holds the
given items. -/
def envPending (items : List Json) : BackendEnv :=
  fun _ => .response ⟨200, .parsed (.obj [("items", .arr items)])⟩

theorem data_append (s t : String) : (s ++ t).data = s.data ++ t.data := rfl

theorem listIsPref_self_append (p t : List Char) : listIsPref p (p ++ t) = true := by
  induction p with
  | nil => rfl
  | cons c cs ih => simp [listIsPref, ih]

theorem listIsPref_exists {p l : List Char} (h : listIsPref p l = true) : ∃ t, l = p ++ t := by
  induction p generalizing l with
  | nil => exact ⟨l, rfl⟩
  | cons c cs ih =>
    cases l with
    | nil => simp [listIsPref] at h
    | cons a as =>
      simp only [listIsPref, Bool.and_eq_true, decide_eq_true_eq] at h
      obtain ⟨t, ht⟩ := ih h.2
      exact ⟨t, by rw [h.1, ht]; rfl⟩

theorem pyStartsWith_append (p x : String) : pyStartsWith (p ++ x) p = true := by
  unfold pyStartsWith
  rw [data_append]
  exact listIsPref_self_append p.data x.data

theorem pyReplaceFirst_strip (X : String) : pyReplaceFirst ("login_" ++ X) "login_" "" = X := by
  unfold pyReplaceFirst
  rw [replaceFirstList.eq_def]
  rw [if_pos (by rw [data_append]; exact listIsPref_self_append _ _)]
  rw [data_append, List.drop_left]
  rfl

theorem dropWs_nil_all {u : List Char} (h : dropWs u = []) : ∀ c ∈ u, c.isWhitespace = true := by
  induction u with
  | nil => intro c hc; simp at hc
  | cons a as ih =>
    intro c hc
    rw [dropWs] at h
    rw [List.mem_cons] at hc
    by_cases hws : a.isWhitespace
    · rw [if_pos hws] at h
      rcases hc with rfl | hc
      · exact hws
      · exact ih h c hc
    · rw [if_neg hws] at h
      simp at h

theorem dropWsEnd_last : ∀ (l p : List Char) (c : Char), dropWsEnd l = p ++ [c] → c.isWhitespace = false := by
  intro l
  induction l with
  | nil => intro p c h; simp [dropWsEnd] at h
  | cons a as ih =>
    intro p c h
    rw [dropWsEnd] at h
    cases has : dropWsEnd as with
    | nil =>
      rw [has] at h
      by_cases hws : a.isWhitespace
      · rw [if_pos hws] at h; simp at h
      · rw [if_neg hws] at h
        cases p with
        | nil =>
          simp at h
          rw [← h]
          simpa using hws
        | cons q qs =>
          have hl := congrArg List.length h
          simp at hl
    | cons b bs =>
      rw [has] at h
      simp only at h
      cases p with
      | nil => simp at h
      | cons q qs =>
        simp only [List.cons_append, List.cons.injEq] at h
        exact ih qs c (has.trans h.2)

theorem splitMax1_addSpace (u : List Char) :
    pySplitMax1 ⟨'/' :: 'a' :: 'd' :: 'd' :: ' ' :: u⟩ =
      (match dropWs u with
       | [] => ["/add"]
       | r => ["/add", ⟨r⟩]) := rfl

theorem addSpace_parts (t : String) (h : pyStartsWith (pyStrip t) "/add " = true) :
    ∃ rest, pySplitMax1 (pyStrip t) = ["/add", rest] := by
  obtain ⟨u, hu⟩ := listIsPref_exists h
  have hne : dropWs u ≠ [] := by
    intro hnil
    have hall := dropWs_nil_all hnil
    rcases List.eq_nil_or_concat u with rfl | ⟨L, b, rfl⟩
    · have : (' ' : Char).isWhitespace = false := by
        apply dropWsEnd_last (dropWs t.data) ("/add".data)
        calc dropWsEnd (dropWs t.data) = (pyStrip t).data := rfl
          _ = "/add ".data ++ [] := hu
          _ = "/add".data ++ [' '] := by rfl
      simp at this
    · have hb : b.isWhitespace = true := hall b (by rw [List.concat_eq_append]; simp)
      have : b.isWhitespace = false := by
        apply dropWsEnd_last (dropWs t.data) ("/add ".data ++ L)
        calc dropWsEnd (dropWs t.data) = (pyStrip t).data := rfl
          _ = "/add ".data ++ L.concat b := hu
          _ = ("/add ".data ++ L) ++ [b] := by rw [List.concat_eq_append, List.append_assoc]
      rw [hb] at this
      exact absurd this (by simp)
  have hs : pyStrip t = ⟨'/' :: 'a' :: 'd' :: 'd' :: ' ' :: u⟩ := by
    apply String.ext
    exact hu
  rw [hs, splitMax1_addSpace]
  cases hdw : dropWs u with
  | nil => exact absurd hdw hne
  | cons c cs => exact ⟨⟨c :: cs⟩, rfl⟩

theorem addEq_after (t : String) (h : pyStartsWith t "/add=" = true) :
    ∃ code, pyEqSplitAfter t = some code := by
  obtain ⟨u, hu⟩ := listIsPref_exists h
  refine ⟨⟨u⟩, ?_⟩
  have ht : t = ⟨'/' :: 'a' :: 'd' :: 'd' :: '=' :: u⟩ := by
    apply String.ext
    exact hu
  rw [ht]
  rfl

theorem replies_start_with_param (m : Msg) (env : BackendEnv) :
    (start_with_param m env).2.length = 1 := by
  unfold start_with_param
  dsimp only
  repeat' split
  all_goals rfl

theorem replies_start_plain (m : Msg) (env : BackendEnv) :
    (start_plain m env).2.length = 1 := rfl

theorem replies_status (m : Msg) (env : BackendEnv) :
    (status m env).2.length = 1 := by
  unfold status
  repeat' split
  all_goals rfl

theorem replies_accounts (m : Msg) (env : BackendEnv) :
    (accounts m env).2.length = 1 := by
  unfold accounts
  dsimp only
  repeat' split
  all_goals rfl

theorem replies_codes (m : Msg) (env : BackendEnv) :
    (codes m env).2.length = 1 := by
  unfold codes
  dsimp only
  repeat' split
  all_goals rfl

theorem replies_confirm (m : Msg) (env : BackendEnv) :
    (confirm m env).2.length = 1 := by
  unfold confirm
  dsimp only
  repeat' split
  all_goals rfl

theorem replies_linkFlow (m : Msg) (env : BackendEnv) (code : String) :
    (linkFlow m env code).2.length = 1 := by
  unfold linkFlow
  repeat' split
  all_goals rfl

theorem replies_fallback (m : Msg) (env : BackendEnv) :
    (fallback m env).2.length = 1 := by
  unfold fallback
  dsimp only
  split
  · rename_i hadd
    obtain ⟨code, hc⟩ := addEq_after _ hadd
    rw [hc]
    exact replies_linkFlow m env code
  · split
    · rename_i hadds
      obtain ⟨rest, hr⟩ := addSpace_parts _ hadds
      rw [hr]
      exact replies_linkFlow m env (pyStrip rest)
    · rfl

/-- C1: for every inbound message, the dispatcher sends exactly one chat
reply — never zero and never more than one — on every handler path,
including every error path. -/
theorem c1_exactly_one_reply (m : Msg) (env : BackendEnv) :
    (dispatch m env).2.length = 1 := by
  unfold dispatch
  cases classify m.text
  case startDeepLink => exact replies_start_with_param m env
  case startPlain => exact replies_start_plain m env
  case statusCmd => exact replies_status m env
  case accountsCmd => exact replies_accounts m env
  case codesCmd => exact replies_codes m env
  case confirmCmd => exact replies_confirm m env
  case other => exact replies_fallback m env

/-- C2: confirmation resolution is deterministic first-match by list
order.  For every pending list split as pre, c, post where every item of
pre has a confirmation_id whose string form differs from the bare
identifier and c has one equal to it, resolving the bare identifier
(which contains no colon) selects c, the earliest-listed match; in
particular it selects the accountId-1 item out of two items sharing
confirmationId a. -/
theorem c2_bare_first_match (pre : List Json) (c : Json) (post : List Json) (idf : String)
    (hcolon : pyColonSplit idf = none)
    (hpre : ∀ x ∈ pre, ∃ v, pySubscript x "confirmation_id" = .ok v ∧ pyStr v ≠ idf)
    (hc : ∃ v, pySubscript c "confirmation_id" = .ok v ∧ pyStr v = idf) :
    resolveIdentifier (pre ++ c :: post) idf = .ok (some c) := by
  unfold resolveIdentifier
  rw [hcolon]
  induction pre with
  | nil =>
    obtain ⟨v, hv, he⟩ := hc
    rw [List.nil_append, scanBare, hv]
    simp [he]
  | cons x xs ih =>
    obtain ⟨v, hv, hne⟩ := hpre x (by simp)
    rw [List.cons_append, scanBare, hv]
    simp only [if_neg hne]
    exact ih fun y hy => hpre y (by simp [hy])

/-- C2 witness: on pending list with accountId-1 and accountId-2 items
both carrying confirmationId a, resolving the bare a yields the first
item. -/
theorem c2_witness :
    resolveIdentifier [mkPending 1 "a", mkPending 2 "a"] "a" = .ok (some (mkPending 1 "a")) :=
  c2_bare_first_match [] (mkPending 1 "a") [mkPending 2 "a"] "a" rfl
    (by intro x hx; simp at hx) ⟨.str "a", rfl, rfl⟩

/-- C3: for every identifier containing a colon, an item is selected
only if both the string form of its account_id equals the part before
the first colon and the string form of its confirmation_id equals the
part after; and concretely, resolving 2:a against a pending list whose
only item has accountId 1 and confirmationId a yields no selection. -/
theorem c3_colon_requires_both (items : List Json) (identifier l r : String) (c : Json)
    (hsplit : pyColonSplit identifier = some (l, r))
    (hres : resolveIdentifier items identifier = .ok (some c)) :
    ((∃ a, pySubscript c "account_id" = .ok a ∧ pyStr a = l) ∧
     (∃ v, pySubscript c "confirmation_id" = .ok v ∧ pyStr v = r)) ∧
    resolveIdentifier [mkPending 1 "a"] "2:a" = .ok none := by
  refine ⟨?_, rfl⟩
  unfold resolveIdentifier at hres
  rw [hsplit] at hres
  dsimp only at hres
  induction items with
  | nil => simp [scanBare, scanColon] at hres
  | cons x xs ih =>
    rw [scanColon.eq_def] at hres
    simp only at hres
    cases ha : pySubscript x "account_id" with
    | error e => rw [ha] at hres; simp at hres
    | ok a =>
      rw [ha] at hres
      simp only at hres
      by_cases hal : pyStr a = l
      · rw [if_pos hal] at hres
        cases hcv : pySubscript x "confirmation_id" with
        | error e => rw [hcv] at hres; simp at hres
        | ok cv =>
          rw [hcv] at hres
          simp only at hres
          by_cases hcr : pyStr cv = r
          · rw [if_pos hcr] at hres
            simp only [Except.ok.injEq, Option.some.injEq] at hres
            subst hres
            exact ⟨⟨a, ha, hal⟩, ⟨cv, hcv, hcr⟩⟩
          · rw [if_neg hcr] at hres
            exact ih hres
      · rw [if_neg hal] at hres
        exact ih hres

/-- C3 witness: resolving 1:a selects the accountId-1 item, and both of
its fields match the colon parts. -/
theorem c3_witness :
    ((∃ a, pySubscript (mkPending 1 "a") "account_id" = .ok a ∧ pyStr a = "1") ∧
     (∃ v, pySubscript (mkPending 1 "a") "confirmation_id" = .ok v ∧ pyStr v = "a")) ∧
    resolveIdentifier [mkPending 1 "a"] "2:a" = .ok none :=
  c3_colon_requires_both [mkPending 1 "a"] "1:a" "1" "a" (mkPending 1 "a") rfl rfl

/-- C4: for every /confirm message carrying an argument, when the
pending-confirmations response holds an empty items list the handler
replies with the distinct no-pending-confirmations message and makes
only the single GET call — no confirm POST — whatever the argument. -/
theorem c4_empty_pending (m : Msg) (env : BackendEnv)
    (hparts : ¬ (pySplitMax1 m.text).length < 2)
    (henv : env 0 = .response ⟨200, .parsed (.obj [("items", .arr [])])⟩) :
    confirm m env = ([confirmsGetCall m], ["No pending confirmations."]) := by
  unfold confirm
  dsimp only
  rw [if_neg hparts]
  have hc : callAt env 0 = .ok (.obj [("items", .arr [])]) := by
    unfold callAt
    rw [henv]
    rfl
  rw [hc]
  rfl

/-- C4 witness: confirm with argument xyz against an empty pending list
makes one GET and replies no-pending. -/
theorem c4_witness :
    confirm (msgWith "/confirm xyz") (envPending []) =
      ([confirmsGetCall (msgWith "/confirm xyz")], ["No pending confirmations."]) :=
  c4_empty_pending (msgWith "/confirm xyz") (envPending []) (by decide) rfl

/-- C5: for every inbound /confirm message with no trailing content
after the command token, the handler makes no backend call at all and
replies with the fixed usage string. -/
theorem c5_usage (m : Msg) (env : BackendEnv)
    (h : (pySplitMax1 m.text).length < 2) :
    confirm m env = ([], [confirmUsage]) := by
  unfold confirm
  dsimp only
  rw [if_pos h]

/-- C5 witness: bare /confirm replies with the usage string and makes no
backend call. -/
theorem c5_witness :
    confirm (msgWith "/confirm") envBase = ([], [confirmUsage]) :=
  c5_usage (msgWith "/confirm") envBase (by decide)

/-- C6: for every backend response with status at least 400 whose body
parses to a JSON object containing a message field, the call fails with
a RuntimeError carrying exactly that field value, whose rendered text is
str of the value; concretely a 404 with message no-such-code renders in
the codes handler as a reply containing exactly that text, not the raw
JSON. -/
theorem c6_error_message_field (st : Nat) (kvs : List (String × Json)) (v : Json)
    (hst : 400 ≤ st)
    (hmsg : lookupField kvs "message" = some v) :
    call_backend ⟨st, .parsed (.obj kvs)⟩ = .exn (.runtimeError v) ∧
    PyExc.str (.runtimeError v) = pyStr v ∧
    codes (msgWith "/codes") env404 =
      ([codesGetCall (msgWith "/codes")], ["Failed to fetch codes: no such code"]) := by
  refine ⟨?_, rfl, rfl⟩
  unfold call_backend
  dsimp only
  rw [if_pos hst, hmsg]
  rfl

/-- C6 witness: the 404 response with a message field fails with exactly
that message. -/
theorem c6_witness :
    call_backend ⟨404, .parsed (.obj [("message", .str "no such code")])⟩ =
      .exn (.runtimeError (.str "no such code")) ∧
    PyExc.str (.runtimeError (.str "no such code")) = pyStr (.str "no such code") ∧
    codes (msgWith "/codes") env404 =
      ([codesGetCall (msgWith "/codes")], ["Failed to fetch codes: no such code"]) :=
  c6_error_message_field 404 [("message", .str "no such code")] (.str "no such code")
    (by decide) rfl

/-- C7: for every backend response with status 200 whose body is not
valid JSON, the call fails with the json decode error and is never
treated as success: the status handler sends its failure reply, which
can never equal the success reply. -/
theorem c7_parse_failure_is_failure (diag : String) :
    call_backend ⟨200, .invalid diag⟩ = .exn (.jsonDecodeError diag) ∧
    status (msgWith "/status") (envInvalid diag) =
      ([accountsGetCall (msgWith "/status")], ["Backend connection error: " ++ diag]) ∧
    "Backend connection error: " ++ diag ≠ "Backend connection: OK" := by
  refine ⟨rfl, rfl, ?_⟩
  intro h
  have hl := congrArg String.length h
  rw [String.length_append] at hl
  have h26 : ("Backend connection error: " : String).length = 26 := rfl
  have h22 : ("Backend connection: OK" : String).length = 22 := rfl
  rw [h26, h22] at hl
  omega

/-- C7 witness: instantiation at the standard CPython decode diagnostic. -/
theorem c7_witness :
    call_backend ⟨200, .invalid "Expecting value: line 1 column 1 (char 0)"⟩ =
      .exn (.jsonDecodeError "Expecting value: line 1 column 1 (char 0)") ∧
    status (msgWith "/status") (envInvalid "Expecting value: line 1 column 1 (char 0)") =
      ([accountsGetCall (msgWith "/status")],
        ["Backend connection error: " ++ "Expecting value: line 1 column 1 (char 0)"]) ∧
    "Backend connection error: " ++ "Expecting value: line 1 column 1 (char 0)" ≠
      "Backend connection: OK" :=
  c7_parse_failure_is_failure "Expecting value: line 1 column 1 (char 0)"

/-- C8: for every inbound text whose command token is the start command
and whose argument is login_X, classification is the deep-link start
intent and the extracted login code passed to the oauth call is exactly
X — the login underscore prefix is stripped exactly once and nothing is
trimmed beyond the command split. -/
theorem c8_deep_link_extraction (m : Msg) (env : BackendEnv) (arg X : String)
    (h1 : pySplitMax1 m.text = ["/start", arg])
    (h2 : arg = "login_" ++ X) :
    classify m.text = .startDeepLink ∧
    (start_with_param m env).1 = [oauthCall m X] := by
  constructor
  · unfold classify
    rw [h1]
    rfl
  · unfold start_with_param
    dsimp only
    rw [h1]
    rw [show (if 1 < (["/start", arg] : List String).length then (["/start", arg] : List String).getD 1 "" else "") = arg from rfl]
    rw [h2]
    rw [if_pos (pyStartsWith_append "login_" X)]
    rw [pyReplaceFirst_strip]
    cases callAt env 0 <;> rfl

/-- C8 witness: the text /start login_abc classifies as deep link and
the oauth call carries code abc. -/
theorem c8_witness :
    classify (msgWith "/start login_abc").text = .startDeepLink ∧
    (start_with_param (msgWith "/start login_abc") envBase).1 =
      [oauthCall (msgWith "/start login_abc") "abc"] :=
  c8_deep_link_extraction (msgWith "/start login_abc") envBase "login_abc" "abc" rfl rfl

/-- C9 counterexample: on the concrete input /start foo the reply is the
commands-list text of the deep-link handler, which differs from the
greeting sent for a bare /start — refuting the claim that a start
command with a non-login argument is classified StartPlain and answered
with the same static greeting as a bare start. -/
theorem c9_counterexample :
    dispatch (msgWith "/start foo") envBase = ([], [startReadyText]) ∧
    dispatch (msgWith "/start") envBase = ([], [startPlainText]) ∧
    startReadyText ≠ startPlainText :=
  ⟨rfl, rfl, by decide⟩

/-- C9 amended: for every start command with a non-empty argument not
beginning with login underscore, the message is routed to the deep-link
start handler, whose fallback branch sends the static commands-list
reply — a different static text from the bare-start greeting — and makes
no backend call. -/
theorem c9_amended_start_arg (m : Msg) (env : BackendEnv) (arg : String)
    (h1 : pySplitMax1 m.text = ["/start", arg])
    (h2 : pyStartsWith arg "login_" = false) :
    classify m.text = .startDeepLink ∧ dispatch m env = ([], [startReadyText]) := by
  have hcl : classify m.text = .startDeepLink := by
    unfold classify
    rw [h1]
    rfl
  refine ⟨hcl, ?_⟩
  unfold dispatch
  rw [hcl]
  unfold start_with_param
  dsimp only
  rw [h1]
  rw [show (if 1 < (["/start", arg] : List String).length then (["/start", arg] : List String).getD 1 "" else "") = arg from rfl]
  rw [if_neg (by rw [h2]; simp)]

/-- C9 witness: /start foo goes to the deep-link handler and gets the
commands-list reply with no backend call. -/
theorem c9_witness :
    classify (msgWith "/start foo").text = .startDeepLink ∧
    dispatch (msgWith "/start foo") envBase = ([], [startReadyText]) :=
  c9_amended_start_arg (msgWith "/start foo") envBase "foo" rfl rfl

/-- C10: for every backend response with status at least 400 whose body
parses to a JSON object without a message key, the failure carries the
None value — rendered in the chat reply as the text None — not the
stringified body of the whole object. -/
theorem c10_missing_message_none (st : Nat) (kvs : List (String × Json))
    (hst : 400 ≤ st)
    (hmsg : lookupField kvs "message" = none) :
    call_backend ⟨st, .parsed (.obj kvs)⟩ = .exn (.runtimeError .null) ∧
    pyStr .null = "None" ∧
    status (msgWith "/status") env500 =
      ([accountsGetCall (msgWith "/status")], ["Backend connection error: None"]) := by
  refine ⟨?_, rfl, rfl⟩
  unfold call_backend
  dsimp only
  rw [if_pos hst, hmsg]
  rfl

/-- C10 witness: a 500 with an empty object body fails with None and the
status handler renders the text None. -/
theorem c10_witness :
    call_backend ⟨500, .parsed (.obj [])⟩ = .exn (.runtimeError .null) ∧
    pyStr .null = "None" ∧
    status (msgWith "/status") env500 =
      ([accountsGetCall (msgWith "/status")], ["Backend connection error: None"]) :=
  c10_missing_message_none 500 [] (by decide) rfl
